import Mathlib

/-!
Verification of the Opus JNI bridge (`app/src/main/cpp/opus_jni.cpp`).

The bridge exposes four boundary operations over libopus:
`nativeCreateEncoder`, `nativeEncode`, `nativeDecode`, `nativeDestroyEncoder`.
We embed them shallowly: calls into libopus are abstracted by an oracle
structure `OpusLib` (the bridge never inspects codec internals, only return
codes and output buffers), the JNI array-pinning/allocation primitives by
`JniEnvModel`, and each boundary function additionally produces a trace of
codec-library events so that lifecycle claims (destroy-before-return,
configuration order) can be stated.
-/

namespace OpusJni

/-- Constant OPUS_OK from the opus headers. -/
def OPUS_OK : Int := 0

/-- Constant OPUS_APPLICATION_VOIP from the opus headers. -/
def OPUS_APPLICATION_VOIP : Int := 2048

/-- Constant OPUS_SIGNAL_VOICE from the opus headers. -/
def OPUS_SIGNAL_VOICE : Int := 3001

/-- Maximum packet size used for the encode output buffer
(`const int maxDataBytes = 1276;` in the source). -/
def MAX_DATA_BYTES : Nat := 1276

/-- Scratch bound on decoded samples per channel
(`const int maxSamples = 960 * 6;` in the source). -/
def MAX_SAMPLES : Nat := 960 * 6

/-- Requests passed to opus_encoder_ctl by the bridge. -/
inductive CtlReq where
  | setBitrate (b : Int)
  | setSignal (s : Int)
  | setVbr (v : Int)
  | setDtx (v : Int)
  | setComplexity (c : Int)
  | getBitrate
  | getVbr
  | getDtx
  | getComplexity
deriving DecidableEq, Repr

/-- Codec-library events emitted by the bridge, in call order. -/
inductive Event where
  | encoderCreate (sampleRate channels application : Int) (ok : Bool)
  | encoderCtl (enc : Nat) (req : CtlReq) (ret : Int)
  | encoderDestroy (enc : Nat)
  | encodeCall (enc : Nat) (frameSize : Nat) (ret : Int)
  | decoderCreate (sampleRate channels : Int) (ok : Bool)
  | decodeCall (dec : Nat) (inLen : Nat) (ret : Int)
  | decoderDestroy (dec : Nat)
deriving DecidableEq, Repr

/-- Oracle for the behaviour of libopus as observed by the bridge: the
bridge only consumes return codes and the bytes/samples the codec writes
into the caller-supplied buffers, so those are the oracle fields.
Handles are naturals; 0 is the null pointer. -/
structure OpusLib where
  encoderCreateErr : Int → Int → Int
  encoderCtlRet : Nat → CtlReq → Int
  encodeRet : Nat → List Int → Nat → Int
  encodeBuf : Nat → List Int → List Int
  decoderCreateErr : Int → Int → Int
  decodeRet : Nat → List Int → Nat → Int
  decodeBuf : Nat → List Int → List Int

/-- Outcome of the JNI array primitives the source checks for failure:
GetShortArrayElements (encode), GetByteArrayElements and NewShortArray
(decode). -/
structure JniEnvModel where
  pinShortOk : Bool
  pinByteOk : Bool
  newShortOk : Bool
deriving DecidableEq, Repr

/-- Bridge-side state: the next fresh encoder handle and the set of live
encoder handles. Allocation on success yields the nonzero handle
`nextHandle + 1`, matching that a successful opus_encoder_create returns a
non-null pointer. -/
structure JniState where
  nextHandle : Nat
  live : List Nat
deriving DecidableEq, Repr

/-- Content of the 1276-byte encode output buffer after opus_encode: the
codec writes `encodeBuf` (clipped to the buffer size); the rest keeps the
zero fill of `std::vector out(maxDataBytes)`. Length is always 1276. -/
def encodeOut (lib : OpusLib) (enc : Nat) (pcm : List Int) : List Int :=
  (lib.encodeBuf enc pcm).take MAX_DATA_BYTES ++
    List.replicate (MAX_DATA_BYTES - (lib.encodeBuf enc pcm).length) 0

/-- Content of the decode scratch buffer (`std::vector outBuf(maxSamples *
channels)`) after opus_decode. Length is always `MAX_SAMPLES * channels.toNat`. -/
def decodeOutBuf (lib : OpusLib) (dec : Nat) (bytes : List Int) (channels : Int) : List Int :=
  (lib.decodeBuf dec bytes).take (MAX_SAMPLES * channels.toNat) ++
    List.replicate (MAX_SAMPLES * channels.toNat - (lib.decodeBuf dec bytes).length) 0

/-- The four best-effort configuration calls issued after the bitrate step
(lines 31-41 of the source), in source order; return codes are recorded in
the trace but never inspected, exactly as the source discards them. -/
def bestEffortCtls (lib : OpusLib) (enc : Nat) : List Event :=
  [Event.encoderCtl enc (CtlReq.setSignal OPUS_SIGNAL_VOICE)
     (lib.encoderCtlRet enc (CtlReq.setSignal OPUS_SIGNAL_VOICE)),
   Event.encoderCtl enc (CtlReq.setVbr 0) (lib.encoderCtlRet enc (CtlReq.setVbr 0)),
   Event.encoderCtl enc (CtlReq.setDtx 0) (lib.encoderCtlRet enc (CtlReq.setDtx 0)),
   Event.encoderCtl enc (CtlReq.setComplexity 5)
     (lib.encoderCtlRet enc (CtlReq.setComplexity 5))]

/-- The four diagnostic GET calls issued for logging (lines 44-54 of the
source), in source order. -/
def logQueryCtls (lib : OpusLib) (enc : Nat) : List Event :=
  [Event.encoderCtl enc CtlReq.getBitrate (lib.encoderCtlRet enc CtlReq.getBitrate),
   Event.encoderCtl enc CtlReq.getVbr (lib.encoderCtlRet enc CtlReq.getVbr),
   Event.encoderCtl enc CtlReq.getDtx (lib.encoderCtlRet enc CtlReq.getDtx),
   Event.encoderCtl enc CtlReq.getComplexity (lib.encoderCtlRet enc CtlReq.getComplexity)]

/-- Embedding of Java_com_bitchat_android_rtc_OpusWrapper_nativeCreateEncoder
(source lines 12-57). Returns the handle (0 on failure), the new bridge
state, and the trace of codec calls. -/
def nativeCreateEncoder (lib : OpusLib) (st : JniState) (sampleRate channels bitrate : Int) :
    Nat × JniState × List Event :=
  if lib.encoderCreateErr sampleRate channels ≠ OPUS_OK then
    (0, st, [Event.encoderCreate sampleRate channels OPUS_APPLICATION_VOIP false])
  else if 0 < bitrate then
    if lib.encoderCtlRet (st.nextHandle + 1) (CtlReq.setBitrate bitrate) ≠ OPUS_OK then
      (0, st,
       [Event.encoderCreate sampleRate channels OPUS_APPLICATION_VOIP true,
        Event.encoderCtl (st.nextHandle + 1) (CtlReq.setBitrate bitrate)
          (lib.encoderCtlRet (st.nextHandle + 1) (CtlReq.setBitrate bitrate)),
        Event.encoderDestroy (st.nextHandle + 1)])
    else
      (st.nextHandle + 1,
       { nextHandle := st.nextHandle + 1, live := (st.nextHandle + 1) :: st.live },
       Event.encoderCreate sampleRate channels OPUS_APPLICATION_VOIP true ::
         Event.encoderCtl (st.nextHandle + 1) (CtlReq.setBitrate bitrate)
           (lib.encoderCtlRet (st.nextHandle + 1) (CtlReq.setBitrate bitrate)) ::
         (bestEffortCtls lib (st.nextHandle + 1) ++ logQueryCtls lib (st.nextHandle + 1)))
  else
    (st.nextHandle + 1,
     { nextHandle := st.nextHandle + 1, live := (st.nextHandle + 1) :: st.live },
     Event.encoderCreate sampleRate channels OPUS_APPLICATION_VOIP true ::
       (bestEffortCtls lib (st.nextHandle + 1) ++ logQueryCtls lib (st.nextHandle + 1)))

/-- Embedding of Java_com_bitchat_android_rtc_OpusWrapper_nativeEncode
(source lines 59-86). The source checks, in order: null handle, empty
frame, pin failure, then calls opus_encode with the sample count as the
frame size and returns the first `encoded` bytes of the output buffer. -/
def nativeEncode (env : JniEnvModel) (lib : OpusLib) (encPtr : Nat) (pcm : List Int) :
    Option (List Int) × List Event :=
  if encPtr = 0 then (none, [])
  else if pcm.length = 0 then (none, [])
  else if env.pinShortOk = false then (none, [])
  else if lib.encodeRet encPtr pcm MAX_DATA_BYTES ≤ 0 then
    (none, [Event.encodeCall encPtr pcm.length (lib.encodeRet encPtr pcm MAX_DATA_BYTES)])
  else
    (some ((encodeOut lib encPtr pcm).take (lib.encodeRet encPtr pcm MAX_DATA_BYTES).toNat),
     [Event.encodeCall encPtr pcm.length (lib.encodeRet encPtr pcm MAX_DATA_BYTES)])

/-- Embedding of Java_com_bitchat_android_rtc_OpusWrapper_nativeDecode
(source lines 89-124). The packet argument is an Option: `none` is a null
jbyteArray reference. The ephemeral decoder gets the fixed local id 1; it
is destroyed (together with releasing the pinned input) before the
decoded-sample check, so the destroy event appears on every path past a
successful opus_decoder_create. -/
def nativeDecode (env : JniEnvModel) (lib : OpusLib) (opusData : Option (List Int))
    (sampleRate channels : Int) : Option (List Int) × List Event :=
  match opusData with
  | none => (none, [])
  | some bytes =>
    if bytes.length = 0 then (none, [])
    else if env.pinByteOk = false then (none, [])
    else if lib.decoderCreateErr sampleRate channels ≠ OPUS_OK then
      (none, [Event.decoderCreate sampleRate channels false])
    else if lib.decodeRet 1 bytes MAX_SAMPLES ≤ 0 then
      (none,
       [Event.decoderCreate sampleRate channels true,
        Event.decodeCall 1 bytes.length (lib.decodeRet 1 bytes MAX_SAMPLES),
        Event.decoderDestroy 1])
    else if env.newShortOk = false then
      (none,
       [Event.decoderCreate sampleRate channels true,
        Event.decodeCall 1 bytes.length (lib.decodeRet 1 bytes MAX_SAMPLES),
        Event.decoderDestroy 1])
    else
      (some ((decodeOutBuf lib 1 bytes channels).take
              (lib.decodeRet 1 bytes MAX_SAMPLES * channels).toNat),
       [Event.decoderCreate sampleRate channels true,
        Event.decodeCall 1 bytes.length (lib.decodeRet 1 bytes MAX_SAMPLES),
        Event.decoderDestroy 1])

/-- Embedding of Java_com_bitchat_android_rtc_OpusWrapper_nativeDestroyEncoder
(source lines 126-131): destroy is called exactly when the handle is
nonzero; the source performs no liveness check. -/
def nativeDestroyEncoder (st : JniState) (encPtr : Nat) : JniState × List Event :=
  if encPtr = 0 then (st, [])
  else ({ st with live := st.live.erase encPtr }, [Event.encoderDestroy encPtr])

/-- Concrete oracle used for witnesses and counterexamples: every codec
call succeeds, encode reports 3 bytes, decode reports 2 samples. -/
def sampleLib : OpusLib where
  encoderCreateErr := fun _ _ => 0
  encoderCtlRet := fun _ _ => 0
  encodeRet := fun _ _ _ => 3
  encodeBuf := fun _ _ => [10, 20, 30, 40]
  decoderCreateErr := fun _ _ => 0
  decodeRet := fun _ _ _ => 2
  decodeBuf := fun _ _ => [7, 8, 9, 10]

/-- JNI environment in which every array primitive succeeds. -/
def defaultEnv : JniEnvModel where
  pinShortOk := true
  pinByteOk := true
  newShortOk := true

/-- Length of the encode output buffer is always MAX_DATA_BYTES. -/
theorem encodeOut_length (lib : OpusLib) (enc : Nat) (pcm : List Int) :
    (encodeOut lib enc pcm).length = MAX_DATA_BYTES := by
  simp only [encodeOut, List.length_append, List.length_take, List.length_replicate]
  omega

/-- Length of the decode scratch buffer is always MAX_SAMPLES * channels. -/
theorem decodeOutBuf_length (lib : OpusLib) (dec : Nat) (bytes : List Int) (channels : Int) :
    (decodeOutBuf lib dec bytes channels).length = MAX_SAMPLES * channels.toNat := by
  simp only [decodeOutBuf, List.length_append, List.length_take, List.length_replicate]
  omega

/-- C10: decode called with a null packet reference (the `none` argument,
as distinct from a present-but-empty byte sequence) returns the null
failure sentinel immediately, with an empty trace: no decoder is created
and the codec is never invoked. -/
theorem decode_null_packet (env : JniEnvModel) (lib : OpusLib) (sampleRate channels : Int) :
    nativeDecode env lib none sampleRate channels = (none, []) := rfl

/-- C2: assuming array pinning succeeds, encode returns the null failure
sentinel if and only if the handle is the zero sentinel, the PCM frame is
empty, or opus_encode reports a non-positive result; otherwise it returns
a byte sequence. -/
theorem encode_none_iff (env : JniEnvModel) (lib : OpusLib) (encPtr : Nat) (pcm : List Int)
    (hpin : env.pinShortOk = true) :
    (nativeEncode env lib encPtr pcm).1 = none ↔
      encPtr = 0 ∨ pcm.length = 0 ∨ lib.encodeRet encPtr pcm MAX_DATA_BYTES ≤ 0 := by
  unfold nativeEncode
  split_ifs with h1 h2 h3 h4 <;> simp_all

/-- C2 witness: the equivalence instantiated on a concrete nonzero handle
with a nonempty frame and the sample oracle. -/
theorem encode_none_iff_witness :
    (nativeEncode defaultEnv sampleLib 2 [0, 0, 0]).1 = none ↔
      (2 : Nat) = 0 ∨ ([0, 0, 0] : List Int).length = 0 ∨
        sampleLib.encodeRet 2 [0, 0, 0] MAX_DATA_BYTES ≤ 0 :=
  encode_none_iff defaultEnv sampleLib 2 [0, 0, 0] rfl

/-- C9 counterexample: the claim says encode on a destroyed handle always
fails, but the source checks only for the null pointer (lines 60-61) and
otherwise passes the stale pointer to opus_encode. Concretely: handle 2 is
created, destroyed (so it is not live), and encode on it still returns a
packet because the codec oracle reports success. -/
theorem encode_after_destroy_cex :
    (nativeCreateEncoder sampleLib ⟨1, []⟩ 48000 1 0).1 = 2 ∧
    2 ∉ (nativeDestroyEncoder (nativeCreateEncoder sampleLib ⟨1, []⟩ 48000 1 0).2.1 2).1.live ∧
    (nativeEncode defaultEnv sampleLib 2 [0, 0, 0]).1 = some [10, 20, 30] := by
  refine ⟨rfl, by decide, ?_⟩
  rfl

/-- C9 amended: encode called with the zero sentinel handle always fails
with the null sentinel; for nonzero handles the source performs no
liveness check, so a destroyed handle is handed to the codec unchecked. -/
theorem encode_zero_handle_none (env : JniEnvModel) (lib : OpusLib) (pcm : List Int) :
    (nativeEncode env lib 0 pcm).1 = none := rfl

/-- C8: destroy_encoder on the zero sentinel is a no-op (no codec call,
state unchanged); on a live nonzero handle it emits exactly one destroy
call and removes the handle from the live set. -/
theorem destroyEncoder_spec (st : JniState) (encPtr : Nat)
    (hlive : encPtr ∈ st.live) (hnz : encPtr ≠ 0) :
    nativeDestroyEncoder st 0 = (st, []) ∧
    (nativeDestroyEncoder st encPtr).2 = [Event.encoderDestroy encPtr] ∧
    (nativeDestroyEncoder st encPtr).1.live = st.live.erase encPtr := by
  unfold nativeDestroyEncoder
  simp [hnz]

/-- C8 witness: destroying live handle 3 in a concrete state. -/
theorem destroyEncoder_spec_witness :
    nativeDestroyEncoder ⟨5, [3]⟩ 0 = (⟨5, [3]⟩, []) ∧
    (nativeDestroyEncoder ⟨5, [3]⟩ 3).2 = [Event.encoderDestroy 3] ∧
    (nativeDestroyEncoder ⟨5, [3]⟩ 3).1.live = ([3] : List Nat).erase 3 :=
  destroyEncoder_spec ⟨5, [3]⟩ 3 (by decide) (by decide)

/-- C1: create_encoder returns the zero sentinel exactly when the encoder
allocation fails or when the requested bitrate is positive and applying it
fails; in the bitrate-failure case the partially-configured encoder is
destroyed before returning, and a nonzero return is always the freshly
allocated handle. -/
theorem createEncoder_zero_iff (lib : OpusLib) (st : JniState)
    (sampleRate channels bitrate : Int) :
    ((nativeCreateEncoder lib st sampleRate channels bitrate).1 = 0 ↔
      lib.encoderCreateErr sampleRate channels ≠ OPUS_OK ∨
        (0 < bitrate ∧
          lib.encoderCtlRet (st.nextHandle + 1) (CtlReq.setBitrate bitrate) ≠ OPUS_OK)) ∧
    (lib.encoderCreateErr sampleRate channels = OPUS_OK → 0 < bitrate →
      lib.encoderCtlRet (st.nextHandle + 1) (CtlReq.setBitrate bitrate) ≠ OPUS_OK →
      Event.encoderDestroy (st.nextHandle + 1) ∈
        (nativeCreateEncoder lib st sampleRate channels bitrate).2.2) ∧
    ((nativeCreateEncoder lib st sampleRate channels bitrate).1 ≠ 0 →
      (nativeCreateEncoder lib st sampleRate channels bitrate).1 = st.nextHandle + 1) := by
  unfold nativeCreateEncoder
  split_ifs with h1 h2 h3 <;> simp_all

/-- C7: when allocation succeeds and the bitrate step does not fail, the
trace is exactly the create call, the bitrate call when requested, then
the four best-effort settings in the fixed source order (signal = voice,
VBR off, DTX off, complexity 5) followed by the diagnostic GET calls; the
best-effort return codes are never inspected, so the call still returns
the valid nonzero handle whatever they are. -/
theorem createEncoder_config_order (lib : OpusLib) (st : JniState)
    (sampleRate channels bitrate : Int)
    (hok : lib.encoderCreateErr sampleRate channels = OPUS_OK)
    (hbr : 0 < bitrate →
      lib.encoderCtlRet (st.nextHandle + 1) (CtlReq.setBitrate bitrate) = OPUS_OK) :
    (nativeCreateEncoder lib st sampleRate channels bitrate).1 = st.nextHandle + 1 ∧
    (nativeCreateEncoder lib st sampleRate channels bitrate).1 ≠ 0 ∧
    (nativeCreateEncoder lib st sampleRate channels bitrate).2.2 =
      (Event.encoderCreate sampleRate channels OPUS_APPLICATION_VOIP true ::
        (if 0 < bitrate then
          [Event.encoderCtl (st.nextHandle + 1) (CtlReq.setBitrate bitrate)
            (lib.encoderCtlRet (st.nextHandle + 1) (CtlReq.setBitrate bitrate))]
         else [])) ++
      [Event.encoderCtl (st.nextHandle + 1) (CtlReq.setSignal OPUS_SIGNAL_VOICE)
        (lib.encoderCtlRet (st.nextHandle + 1) (CtlReq.setSignal OPUS_SIGNAL_VOICE)),
       Event.encoderCtl (st.nextHandle + 1) (CtlReq.setVbr 0)
        (lib.encoderCtlRet (st.nextHandle + 1) (CtlReq.setVbr 0)),
       Event.encoderCtl (st.nextHandle + 1) (CtlReq.setDtx 0)
        (lib.encoderCtlRet (st.nextHandle + 1) (CtlReq.setDtx 0)),
       Event.encoderCtl (st.nextHandle + 1) (CtlReq.setComplexity 5)
        (lib.encoderCtlRet (st.nextHandle + 1) (CtlReq.setComplexity 5))] ++
      logQueryCtls lib (st.nextHandle + 1) := by
  unfold nativeCreateEncoder
  by_cases hb : 0 < bitrate
  · simp [hok, hb, hbr hb, bestEffortCtls]
  · simp [hok, hb, bestEffortCtls]

/-- C7 witness: creation on the sample oracle with no bitrate request. -/
theorem createEncoder_config_order_witness :
    (nativeCreateEncoder sampleLib ⟨1, []⟩ 48000 1 0).1 = 2 ∧
    (nativeCreateEncoder sampleLib ⟨1, []⟩ 48000 1 0).1 ≠ 0 ∧
    (nativeCreateEncoder sampleLib ⟨1, []⟩ 48000 1 0).2.2 =
      (Event.encoderCreate 48000 1 OPUS_APPLICATION_VOIP true ::
        (if (0 : Int) < 0 then
          [Event.encoderCtl 2 (CtlReq.setBitrate 0) (sampleLib.encoderCtlRet 2 (CtlReq.setBitrate 0))]
         else [])) ++
      [Event.encoderCtl 2 (CtlReq.setSignal OPUS_SIGNAL_VOICE)
        (sampleLib.encoderCtlRet 2 (CtlReq.setSignal OPUS_SIGNAL_VOICE)),
       Event.encoderCtl 2 (CtlReq.setVbr 0) (sampleLib.encoderCtlRet 2 (CtlReq.setVbr 0)),
       Event.encoderCtl 2 (CtlReq.setDtx 0) (sampleLib.encoderCtlRet 2 (CtlReq.setDtx 0)),
       Event.encoderCtl 2 (CtlReq.setComplexity 5)
        (sampleLib.encoderCtlRet 2 (CtlReq.setComplexity 5))] ++
      logQueryCtls sampleLib 2 :=
  createEncoder_config_order sampleLib ⟨1, []⟩ 48000 1 0 rfl (fun h => absurd h (by decide))

/-- C4: assuming the JNI array primitives succeed, decode on a present
packet returns the null failure sentinel if and only if the packet is
empty, opus_decoder_create fails, or opus_decode reports a non-positive
sample count. -/
theorem decode_none_iff (env : JniEnvModel) (lib : OpusLib) (bytes : List Int)
    (sampleRate channels : Int)
    (hpin : env.pinByteOk = true) (hnew : env.newShortOk = true) :
    (nativeDecode env lib (some bytes) sampleRate channels).1 = none ↔
      bytes.length = 0 ∨ lib.decoderCreateErr sampleRate channels ≠ OPUS_OK ∨
        lib.decodeRet 1 bytes MAX_SAMPLES ≤ 0 := by
  unfold nativeDecode
  by_cases h1 : bytes.length = 0 <;>
    by_cases h2 : lib.decoderCreateErr sampleRate channels = OPUS_OK <;>
      by_cases h3 : lib.decodeRet 1 bytes MAX_SAMPLES ≤ 0 <;>
        simp [h1, h2, h3, hpin, hnew]

/-- C4 witness: the equivalence instantiated on a concrete two-byte packet
and the sample oracle. -/
theorem decode_none_iff_witness :
    (nativeDecode defaultEnv sampleLib (some [1, 2]) 48000 1).1 = none ↔
      ([1, 2] : List Int).length = 0 ∨ sampleLib.decoderCreateErr 48000 1 ≠ OPUS_OK ∨
        sampleLib.decodeRet 1 [1, 2] MAX_SAMPLES ≤ 0 :=
  decode_none_iff defaultEnv sampleLib [1, 2] 48000 1 rfl rfl

/-- C6: whenever the ephemeral decoder is successfully created (nonempty
pinned input, opus_decoder_create returning OPUS_OK), the trace of the
decode call is exactly create, decode, destroy — independent of the decode
result and of the output-array allocation, so the decoder is destroyed
before returning on the success path and on every failure path, and the
returned value is a PCM array or the sentinel, never a decoder handle. -/
theorem decode_ephemeral_destroyed (env : JniEnvModel) (lib : OpusLib) (bytes : List Int)
    (sampleRate channels : Int)
    (hpin : env.pinByteOk = true) (hne : bytes.length ≠ 0)
    (hok : lib.decoderCreateErr sampleRate channels = OPUS_OK) :
    (nativeDecode env lib (some bytes) sampleRate channels).2 =
      [Event.decoderCreate sampleRate channels true,
       Event.decodeCall 1 bytes.length (lib.decodeRet 1 bytes MAX_SAMPLES),
       Event.decoderDestroy 1] := by
  unfold nativeDecode
  by_cases h3 : lib.decodeRet 1 bytes MAX_SAMPLES ≤ 0 <;>
    by_cases h4 : env.newShortOk = false <;>
      simp [hne, hok, hpin, h3, h4]

/-- C6 witness: the trace of a concrete decode call on the sample oracle. -/
theorem decode_ephemeral_destroyed_witness :
    (nativeDecode defaultEnv sampleLib (some [1, 2]) 48000 1).2 =
      [Event.decoderCreate 48000 1 true,
       Event.decodeCall 1 ([1, 2] : List Int).length (sampleLib.decodeRet 1 [1, 2] MAX_SAMPLES),
       Event.decoderDestroy 1] :=
  decode_ephemeral_destroyed defaultEnv sampleLib [1, 2] 48000 1 rfl (by decide) rfl

/-- Helper: toNat distributes over multiplication of nonnegative integers. -/
theorem int_toNat_mul (a b : Int) (ha : 0 ≤ a) (hb : 0 ≤ b) :
    (a * b).toNat = a.toNat * b.toNat := by
  obtain ⟨m, rfl⟩ := Int.eq_ofNat_of_zero_le ha
  obtain ⟨n, rfl⟩ := Int.eq_ofNat_of_zero_le hb
  rw [← Int.natCast_mul, Int.toNat_natCast, Int.toNat_natCast, Int.toNat_natCast]

/-- C3: a successful encode returns exactly as many bytes as opus_encode
reported, which is positive and (by the opus_encode contract that the
result never exceeds the supplied buffer size) at most 1276 — never the
full padded buffer. -/
theorem encode_success_length (env : JniEnvModel) (lib : OpusLib) (encPtr : Nat)
    (pcm out : List Int)
    (hsome : (nativeEncode env lib encPtr pcm).1 = some out)
    (hbound : lib.encodeRet encPtr pcm MAX_DATA_BYTES ≤ 1276) :
    out.length = (lib.encodeRet encPtr pcm MAX_DATA_BYTES).toNat ∧
    0 < out.length ∧ out.length ≤ 1276 := by
  unfold nativeEncode at hsome
  by_cases h1 : encPtr = 0
  · simp [h1] at hsome
  by_cases h2 : pcm.length = 0
  · simp [h1, h2] at hsome
  by_cases h3 : env.pinShortOk = false
  · simp [h1, h2, h3] at hsome
  by_cases h4 : lib.encodeRet encPtr pcm MAX_DATA_BYTES ≤ 0
  · simp [h1, h2, h3, h4] at hsome
  · simp [h1, h2, h3, h4] at hsome
    have hlen : out.length =
        min (lib.encodeRet encPtr pcm MAX_DATA_BYTES).toNat MAX_DATA_BYTES := by
      rw [← hsome, List.length_take, encodeOut_length]
    have hmx : MAX_DATA_BYTES = 1276 := rfl
    omega

/-- C3 witness: with the sample oracle reporting 3 encoded bytes, the
returned packet has length 3, which is positive and at most 1276. -/
theorem encode_success_length_witness :
    ([10, 20, 30] : List Int).length = (sampleLib.encodeRet 2 [0, 0, 0] MAX_DATA_BYTES).toNat ∧
    0 < ([10, 20, 30] : List Int).length ∧ ([10, 20, 30] : List Int).length ≤ 1276 :=
  encode_success_length defaultEnv sampleLib 2 [0, 0, 0] [10, 20, 30] rfl (by decide)

/-- C5: a successful decode returns a PCM array of length exactly the
decoded sample count times the channel count — never the full scratch
buffer — and (by the opus_decode contract that the result never exceeds
the supplied frame capacity) the per-channel sample count is at most
5760. -/
theorem decode_success_length (env : JniEnvModel) (lib : OpusLib) (bytes pcm : List Int)
    (sampleRate channels : Int)
    (hsome : (nativeDecode env lib (some bytes) sampleRate channels).1 = some pcm)
    (hbound : lib.decodeRet 1 bytes MAX_SAMPLES ≤ 5760)
    (hch : 0 ≤ channels) :
    pcm.length = (lib.decodeRet 1 bytes MAX_SAMPLES).toNat * channels.toNat ∧
    (lib.decodeRet 1 bytes MAX_SAMPLES).toNat ≤ 5760 := by
  unfold nativeDecode at hsome
  by_cases h1 : bytes.length = 0
  · simp [h1] at hsome
  by_cases h2 : env.pinByteOk = false
  · simp [h1, h2] at hsome
  by_cases h3 : lib.decoderCreateErr sampleRate channels = OPUS_OK
  case neg => simp [h1, h2, h3] at hsome
  by_cases h4 : lib.decodeRet 1 bytes MAX_SAMPLES ≤ 0
  · simp [h1, h2, h3, h4] at hsome
  by_cases h5 : env.newShortOk = false
  · simp [h1, h2, h3, h4, h5] at hsome
  · simp [h1, h2, h3, h4, h5] at hsome
    have hmul : (lib.decodeRet 1 bytes MAX_SAMPLES * channels).toNat =
        (lib.decodeRet 1 bytes MAX_SAMPLES).toNat * channels.toNat :=
      int_toNat_mul _ _ (by omega) hch
    have hlen : pcm.length =
        min ((lib.decodeRet 1 bytes MAX_SAMPLES).toNat * channels.toNat)
          (MAX_SAMPLES * channels.toNat) := by
      rw [← hsome, List.length_take, decodeOutBuf_length, hmul]
    have hmx : MAX_SAMPLES = 5760 := rfl
    have hle : (lib.decodeRet 1 bytes MAX_SAMPLES).toNat * channels.toNat ≤
        MAX_SAMPLES * channels.toNat :=
      Nat.mul_le_mul_right channels.toNat (by omega)
    refine ⟨?_, by omega⟩
    omega

/-- C5 witness: with the sample oracle reporting 2 decoded samples on one
channel, the returned PCM frame is exactly 2 samples long. -/
theorem decode_success_length_witness :
    ([7, 8] : List Int).length = (sampleLib.decodeRet 1 [1, 2] MAX_SAMPLES).toNat * (1 : Int).toNat ∧
    (sampleLib.decodeRet 1 [1, 2] MAX_SAMPLES).toNat ≤ 5760 :=
  decode_success_length defaultEnv sampleLib [1, 2] [7, 8] 48000 1 rfl (by decide) (by decide)

end OpusJni
